import Mathlib

/-!
Shallow embedding of the timestamp-extraction and export core of
`src/yttranskripto.py`, together with proofs settling the frozen claims
about that program.

Modelling conventions:
* Python values that can reach `safe_time` / the exporters are modelled by
  the inductive type `Val` (numbers, strings, dicts with string keys in
  insertion order, lists, `None`).  Python `int` and `float` are both
  modelled as exact rationals `ℚ`; non-finite floats (`inf`, `nan`) and
  IEEE rounding are outside the model.
* Python exceptions are modelled with `Except`: an operation that can raise
  returns `Except PyErr _`, and a `try/except` block is an explicit match.
* Dict keys are strings (the program only ever looks up the literal key
  `"value"`, so a non-string key behaves like any other non-matching key).
-/

namespace YT

/-- A Python value as it can reach the transcript core: a number
(`int`/`float` collapsed to an exact rational), a string, a dict
(association list in insertion order), a list, or `None`. -/
inductive Val where
  | num (q : ℚ)
  | str (s : String)
  | dict (entries : List (String × Val))
  | vlist (items : List Val)
  | none
deriving Repr

/-- Python exception kinds the embedded fragment can raise: the
`ValueError`/`TypeError` of `float(...)` on a `Val`, and the range error of
`datetime.utcfromtimestamp` (`overflowError` stands for the
OverflowError/ValueError pair CPython raises for a timestamp outside the
representable range of `datetime`). -/
inductive PyErr where
  | valueError
  | typeError
  | overflowError
deriving Repr, DecidableEq

/-- Numeric value of a list of decimal digit characters. -/
def digitsToNat (ds : List Char) : ℕ :=
  ds.foldl (fun a c => 10 * a + (c.toNat - 48)) 0

/-!
Exact rational arithmetic, implemented through `Rat.divInt` on numerators
and denominators so that every operation reduces inside the Lean kernel
(`Rat.add`, `Rat.mul`, `Rat.inv` do not).  The bridge lemmas right below
prove each operation equal to the corresponding field operation on `ℚ`,
so the arithmetic of the embedding is exactly that of `ℚ`.
-/

/-- Addition `a + b` on `ℚ`, kernel-computable. -/
def qAdd (a b : ℚ) : ℚ :=
  Rat.divInt (a.num * b.den + b.num * a.den) (a.den * b.den)

/-- Subtraction `a - b` on `ℚ`, kernel-computable. -/
def qSub (a b : ℚ) : ℚ :=
  Rat.divInt (a.num * b.den - b.num * a.den) (a.den * b.den)

/-- Multiplication `a * b` on `ℚ`, kernel-computable. -/
def qMul (a b : ℚ) : ℚ :=
  Rat.divInt (a.num * b.num) (a.den * b.den)

/-- Division `a / b` on `ℚ` (for `b ≠ 0`), kernel-computable. -/
def qDivQ (a b : ℚ) : ℚ :=
  Rat.divInt (a.num * b.den) (a.den * b.num)

theorem den_cast_ne_zero (a : ℚ) : ((a.den : ℚ)) ≠ 0 := by
  exact_mod_cast a.den_nz

theorem num_eq_mul_den (a : ℚ) : (a.num : ℚ) = a * (a.den : ℚ) := by
  have h := congrArg (fun x : ℚ => x * (a.den : ℚ)) (Rat.num_div_den a)
  simp only at h
  rw [div_mul_cancel₀ _ (den_cast_ne_zero a)] at h
  exact h.symm.symm

theorem qAdd_eq (a b : ℚ) : qAdd a b = a + b := by
  unfold qAdd
  rw [Rat.divInt_eq_div]
  push_cast
  rw [div_eq_iff (mul_ne_zero (den_cast_ne_zero a) (den_cast_ne_zero b))]
  rw [num_eq_mul_den a, num_eq_mul_den b]
  ring

theorem qSub_eq (a b : ℚ) : qSub a b = a - b := by
  unfold qSub
  rw [Rat.divInt_eq_div]
  push_cast
  rw [div_eq_iff (mul_ne_zero (den_cast_ne_zero a) (den_cast_ne_zero b))]
  rw [num_eq_mul_den a, num_eq_mul_den b]
  ring

theorem qMul_eq (a b : ℚ) : qMul a b = a * b := by
  unfold qMul
  rw [Rat.divInt_eq_div]
  push_cast
  rw [div_eq_iff (mul_ne_zero (den_cast_ne_zero a) (den_cast_ne_zero b))]
  rw [num_eq_mul_den a, num_eq_mul_den b]
  ring

theorem qDivQ_eq (a b : ℚ) (hb : b ≠ 0) : qDivQ a b = a / b := by
  unfold qDivQ
  have hbn : (b.num : ℚ) ≠ 0 := by
    exact_mod_cast Rat.num_ne_zero.mpr hb
  rw [Rat.divInt_eq_div]
  push_cast
  rw [div_eq_div_iff (mul_ne_zero (den_cast_ne_zero a) hbn) hb]
  rw [num_eq_mul_den a, num_eq_mul_den b]
  ring

/-- Strip leading and trailing whitespace, as Python `float(str)` does. -/
def stripWs (cs : List Char) : List Char :=
  ((cs.dropWhile Char.isWhitespace).reverse.dropWhile Char.isWhitespace).reverse

/-- Ten to an integer power, as a rational, kernel-computable. -/
def qPow10 (z : Int) : ℚ :=
  if 0 ≤ z then Rat.divInt (10 ^ z.toNat) 1 else Rat.divInt 1 (10 ^ (-z).toNat)

theorem qPow10_eq (z : Int) : qPow10 z = (10 : ℚ) ^ z := by
  unfold qPow10
  split
  case isTrue h =>
    rw [Rat.divInt_eq_div]
    push_cast
    rw [div_one, ← zpow_natCast (10 : ℚ) z.toNat]
    congr 1
    omega
  case isFalse h =>
    rw [Rat.divInt_eq_div]
    push_cast
    rw [one_div, ← zpow_natCast (10 : ℚ) (-z).toNat, ← zpow_neg]
    congr 1
    omega

/-- Parse an unsigned decimal mantissa: `digits`, `digits.digits`,
`digits.` or `.digits`; returns the value and the unconsumed rest. -/
def parseMantissa (cs : List Char) : Option (ℚ × List Char) :=
  let ip := cs.takeWhile Char.isDigit
  let r1 := cs.dropWhile Char.isDigit
  match r1 with
  | '.' :: r2 =>
      let fp := r2.takeWhile Char.isDigit
      let r3 := r2.dropWhile Char.isDigit
      if ip.isEmpty && fp.isEmpty then Option.none
      else some (qAdd (digitsToNat ip : ℚ) (Rat.divInt (digitsToNat fp) (10 ^ fp.length)), r3)
  | _ =>
      if ip.isEmpty then Option.none else some ((digitsToNat ip : ℚ), r1)

/-- Parse an optional exponent part `e±digits` ending the string, and apply
it to the signed mantissa. -/
def applyExponent (m : ℚ) (cs : List Char) : Option ℚ :=
  let (esgn, cs1) : Int × List Char :=
    match cs with
    | '+' :: r => (1, r)
    | '-' :: r => (-1, r)
    | r => (1, r)
  let ds := cs1.takeWhile Char.isDigit
  let r := cs1.dropWhile Char.isDigit
  if ds.isEmpty || !r.isEmpty then Option.none
  else some (qMul m (qPow10 (esgn * (digitsToNat ds : Int))))

/-- Models Python `float(s)` on the finite decimal fragment: optional
surrounding whitespace, optional sign, decimal mantissa, optional exponent.
The `inf`/`infinity`/`nan` literals and underscore digit separators are
outside the model (the model has no non-finite numbers). -/
def parseFloat? (s : String) : Option ℚ :=
  let cs := stripWs s.toList
  let (sgn, cs1) : ℚ × List Char :=
    match cs with
    | '+' :: r => (1, r)
    | '-' :: r => (-1, r)
    | r => (1, r)
  match parseMantissa cs1 with
  | Option.none => Option.none
  | some (m, rest) =>
      match rest with
      | [] => some (qMul sgn m)
      | 'e' :: r2 => applyExponent (qMul sgn m) r2
      | 'E' :: r2 => applyExponent (qMul sgn m) r2
      | _ => Option.none

/-- Models the Python builtin `float(value)` on a `Val`: numbers convert to
themselves, strings are parsed (`ValueError` on failure), and every other
shape raises `TypeError`. -/
def pyFloat : Val → Except PyErr ℚ
  | .num q => .ok q
  | .str s =>
      match parseFloat? s with
      | some q => .ok q
      | Option.none => .error .valueError
  | .dict _ => .error .typeError
  | .vlist _ => .error .typeError
  | .none => .error .typeError

mutual

/-- Embedding of `safe_time` (src/yttranskripto.py lines 34-54): recursively
extract a numeric value from a nested structure.  For a dict, a parseable
`"value"` key wins; otherwise the values are scanned in insertion order.
The scan in the source guards with `isinstance(num, (int, float))`, which
always holds because `safe_time` always returns a number, so the scan
returns the recursive extraction of the first value. -/
def safe_time : Val → ℚ
  | .dict entries =>
      match entries.lookup "value" with
      | some v =>
          match pyFloat v with
          | .ok q => q
          | .error _ => safe_timeEntries entries
      | Option.none => safe_timeEntries entries
  | v =>
      match pyFloat v with
      | .ok q => q
      | .error _ => 0

/-- The `for v in value.values()` loop of `safe_time`: the
`isinstance(num, (int, float))` test always succeeds, so the first
iteration returns; an empty dict falls through to `0.0`. -/
def safe_timeEntries : List (String × Val) → ℚ
  | [] => 0
  | (_, v) :: _ => safe_time v

end

mutual

/-- Exception-explicit embedding of `safe_time`: each `float(...)` call may
raise, each `try/except (ValueError, TypeError)` is an explicit match, and
an exception escaping a recursive call would propagate through the loop.
Used to state that the function never raises. -/
def safe_timeE : Val → Except PyErr ℚ
  | .dict entries =>
      match entries.lookup "value" with
      | some v =>
          match pyFloat v with
          | .ok q => .ok q
          | .error _ => safe_timeEntriesE entries
      | Option.none => safe_timeEntriesE entries
  | v =>
      match pyFloat v with
      | .ok q => .ok q
      | .error _ => .ok 0

/-- Exception-explicit form of the values loop: a raising recursive call
would propagate (`.error e` is returned, not caught). -/
def safe_timeEntriesE : List (String × Val) → Except PyErr ℚ
  | [] => .ok 0
  | (_, v) :: _ =>
      match safe_timeE v with
      | .ok num => .ok num
      | .error e => .error e

end

/-- Kernel-computable floor of a rational: Euclidean division of the
numerator by the (positive) denominator. -/
def ratFloor (q : ℚ) : Int := q.num / (q.den : Int)

/-- Kernel-computable ceiling of a rational. -/
def ratCeil (q : ℚ) : Int := -(ratFloor (-q))

theorem ratFloor_eq (q : ℚ) : ratFloor q = ⌊q⌋ := Rat.floor_def.symm

theorem ratCeil_eq (q : ℚ) : ratCeil q = ⌈q⌉ := by
  unfold ratCeil
  rw [ratFloor_eq, Int.floor_neg, neg_neg]

/-- Python `int(x)` on a (finite) float: truncation toward zero. -/
def pyInt (q : ℚ) : Int :=
  if 0 ≤ q then ratFloor q else ratCeil q

/-- Python float floor-division `a // b` (for `b > 0`). -/
def pyFloorDiv (a b : ℚ) : ℚ := (ratFloor (qDivQ a b) : ℚ)

/-- Python float modulo `a % b` (for `b > 0`): result in `[0, b)`. -/
def pyMod (a b : ℚ) : ℚ := qSub a (qMul b (ratFloor (qDivQ a b) : ℚ))

/-- Python `round(x)` on a float: round half to even, returning an int. -/
def pyRound (q : ℚ) : Int :=
  let f := ratFloor q
  let r := qSub q (f : ℚ)
  if r < Rat.divInt 1 2 then f
  else if Rat.divInt 1 2 < r then f + 1
  else if Int.emod f 2 = 0 then f else f + 1

/-- Left-pad a string with zeros up to width `w`. -/
def leftPadZeros (w : ℕ) (s : String) : String :=
  if s.length < w then String.mk (List.replicate (w - s.length) '0') ++ s else s

/-- Python `f"{n:0Nd}"` on an int: zero-pad to width `w` counting a leading
minus sign against the width. -/
def pyPadInt (w : ℕ) (n : Int) : String :=
  if n < 0 then "-" ++ leftPadZeros (w - 1) (toString n.natAbs)
  else leftPadZeros w (toString n.natAbs)

/-- The in-range result of `datetime.utcfromtimestamp(s).strftime("%H:%M:%S")`:
the time of day of epoch offset `s`, i.e. the decomposition of
`s mod 86400`.  This helper is only the success branch; the raising
behavior of `utcfromtimestamp` outside the representable range of
`datetime` is carried by `utc_hmsE` below. -/
def utc_hms (s : Int) : String :=
  let t : ℕ := (Int.emod s 86400).toNat
  pyPadInt 2 ((t / 3600 : ℕ) : Int) ++ ":" ++ pyPadInt 2 ((t % 3600 / 60 : ℕ) : Int)
    ++ ":" ++ pyPadInt 2 ((t % 60 : ℕ) : Int)

/-- The smallest epoch offset `datetime.utcfromtimestamp` accepts: the
offset of `datetime.min`, `0001-01-01 00:00:00` (on a CPython platform
that supports negative offsets at all). -/
def utcMinTs : Int := -62135596800

/-- The largest whole-second epoch offset `datetime.utcfromtimestamp`
accepts: the offset of `9999-12-31 23:59:59`, the last second below
`datetime.max`. -/
def utcMaxTs : Int := 253402300799

/-- Exception-explicit model of
`datetime.utcfromtimestamp(s).strftime("%H:%M:%S")`: the mod-86400
time-of-day string for an offset within the representable range of
`datetime` (years 1 through 9999), and a raised range error outside it. -/
def utc_hmsE (s : Int) : Except PyErr String :=
  if utcMinTs ≤ s ∧ s ≤ utcMaxTs then .ok (utc_hms s) else .error .overflowError

/-- Embedding of `format_timestamp` (lines 56-66): truncate the extracted
time to integer seconds, then render per the selected format, defaulting to
the clock format for unknown format names. -/
def format_timestamp (value : Val) (fmt : String) : String :=
  let seconds : Int := pyInt (safe_time value)
  if fmt = "HH:MM:SS" then utc_hms seconds
  else if fmt = "mm:ss" then
    pyPadInt 2 (Int.fdiv seconds 60) ++ ":" ++ pyPadInt 2 (Int.emod seconds 60)
  else utc_hms seconds

/-- Exception-explicit embedding of `format_timestamp` (lines 56-66): the
two `utcfromtimestamp` calls can raise for out-of-range seconds and the
function catches nothing, so the error propagates to the caller; the
`mm:ss` branch is pure integer arithmetic and cannot raise. -/
def format_timestampE (value : Val) (fmt : String) : Except PyErr String :=
  let seconds : Int := pyInt (safe_time value)
  if fmt = "HH:MM:SS" then utc_hmsE seconds
  else if fmt = "mm:ss" then
    .ok (pyPadInt 2 (Int.fdiv seconds 60) ++ ":" ++ pyPadInt 2 (Int.emod seconds 60))
  else utc_hmsE seconds

/-- Embedding of `format_srt_timestamp` (lines 68-75). -/
def format_srt_timestamp (value : Val) : String :=
  let s := safe_time value
  let hours := pyInt (pyFloorDiv s 3600)
  let minutes := pyInt (pyFloorDiv (pyMod s 3600) 60)
  let secs := pyInt (pyMod s 60)
  let msecs := pyRound (qMul (qSub s (pyInt s : ℚ)) 1000)
  pyPadInt 2 hours ++ ":" ++ pyPadInt 2 minutes ++ ":" ++ pyPadInt 2 secs
    ++ "," ++ pyPadInt 3 msecs

/-!
The export serializer.  A transcript entry is a record with the three
fields the program reads (`entry["start"]`, `entry["duration"]`,
`entry["text"]`); the time fields can be any `Val` shape, the text is a
string as delivered by the transcript API.
-/

/-- One transcript segment record. -/
structure Entry where
  start : Val
  duration : Val
  text : String

/-- Concatenation of a list of strings (successive `f.write` calls /
successive `+=` on an accumulator). -/
def concatStr : List String → String
  | [] => ""
  | s :: rest => s ++ concatStr rest

/-- Join a list of strings with a separator between elements. -/
def joinSep (sep : String) : List String → String
  | [] => ""
  | [s] => s
  | s :: rest => s ++ sep ++ joinSep sep rest

/-- One line of the TXT export (lines 231-238): timestamp prefix per the
display policy, then the text, newline-terminated. -/
def txt_line (include_ts : Bool) (tsfmt : String) (e : Entry) : String :=
  if include_ts then "[" ++ format_timestamp e.start tsfmt ++ "] " ++ e.text ++ "\n"
  else e.text ++ "\n"

/-- Embedding of the TXT export loop. -/
def render_txt (include_ts : Bool) (tsfmt : String) (data : List Entry) : String :=
  concatStr (data.map (txt_line include_ts tsfmt))

/-- A cell handed to `csv.writer.writerow`: the program passes either an
already-formatted string or a raw value (the untouched `entry["duration"]`),
which the writer stringifies. -/
inductive Cell where
  | s (v : String)
  | raw (v : Val)

/-- Exact decimal rendering of a rational whose denominator divides a power
of ten, the integer itself for integers, and a fraction fallback otherwise.
This models the `repr` Python gives a number under the exact-rational reading of
floats (every value a float can hold has such a terminating decimal form);
the scientific notation Python switches to for large magnitudes, and the
int/float distinction (`3` vs `3.0`), are outside the model. -/
def ratDecimalString (q : ℚ) : String :=
  if q.den = 1 then toString q.num
  else
    match (List.range 64).find? (fun e => (10 ^ e) % q.den = 0) with
    | some e =>
        let m := q.num.natAbs * ((10 ^ e) / q.den)
        let ds := leftPadZeros (e + 1) (toString m)
        (if q.num < 0 then "-" else "") ++ ds.dropRight e ++ "." ++ ds.takeRight e
    | Option.none => toString q.num ++ "/" ++ toString q.den

mutual

/-- Models Python `repr` on a `Val`, for the fragment the exports can
reach.  String escaping inside `repr` and the int/float distinction are
outside the model (numbers render via the exact-decimal form below). -/
def pyRepr : Val → String
  | .num q => ratDecimalString q
  | .str s => "\x27" ++ s ++ "\x27"
  | .dict entries => "\x7b" ++ pyReprEntries entries ++ "\x7d"
  | .vlist items => "[" ++ pyReprItems items ++ "]"
  | .none => "None"

/-- Dict entries inside `repr`, comma-separated. -/
def pyReprEntries : List (String × Val) → String
  | [] => ""
  | [(k, v)] => "\x27" ++ k ++ "\x27: " ++ pyRepr v
  | (k, v) :: rest => "\x27" ++ k ++ "\x27: " ++ pyRepr v ++ ", " ++ pyReprEntries rest

/-- List items inside `repr`, comma-separated. -/
def pyReprItems : List Val → String
  | [] => ""
  | [v] => pyRepr v
  | v :: rest => pyRepr v ++ ", " ++ pyReprItems rest

end

/-- Models Python `str` on a `Val` (what `csv.writer` applies to a
non-string cell). -/
def pyStr : Val → String
  | .str s => s
  | v => pyRepr v

/-- The string content of a CSV cell: `csv.writer` writes a string as-is,
a raw `None` as the empty string, and any other raw object via `str`. -/
def cellStr : Cell → String
  | .s v => v
  | .raw Val.none => ""
  | .raw v => pyStr v

/-- The CSV header row (line 242). -/
def csv_header : List Cell := [.s "Start Time", .s "Text", .s "Duration"]

/-- One CSV data row (lines 243-248): formatted-or-empty start time, the
text, and the raw duration value. -/
def csv_row (include_ts : Bool) (tsfmt : String) (e : Entry) : List Cell :=
  [.s (if include_ts then format_timestamp e.start tsfmt else ""), .s e.text, .raw e.duration]

/-- All rows handed to the CSV writer: header then one row per segment. -/
def csv_rows (include_ts : Bool) (tsfmt : String) (data : List Entry) : List (List Cell) :=
  csv_header :: data.map (csv_row include_ts tsfmt)

/-- Minimal quoting of the default (excel) dialect of the `csv` module: a field
is quoted iff it contains a delimiter, quote char, or line-break character;
quote chars are doubled. -/
def csvQuoteField (s : String) : String :=
  if s.toList.any (fun c => c == ',' || c == '"' || c == '\n' || c == '\r') then
    "\"" ++ s.replace "\"" "\"\"" ++ "\""
  else s

/-- Render rows as the `csv` module does: comma-delimited cells, CRLF row
terminator. -/
def csv_render (rows : List (List Cell)) : String :=
  concatStr (rows.map fun row =>
    joinSep "," (row.map fun c => csvQuoteField (cellStr c)) ++ "\r\n")

/-- The dict the JSON export serializes for one segment (the original
record, keys in the insertion order used by the transcript API). -/
def entryVal (e : Entry) : Val :=
  .dict [("text", .str e.text), ("start", e.start), ("duration", e.duration)]

/-- The value handed to `json.dump`: the raw transcript list itself. -/
def entriesVal (data : List Entry) : Val :=
  .vlist (data.map entryVal)

/-- One DOCX paragraph (lines 255-261): like a TXT line but with no
trailing newline. -/
def docx_para (include_ts : Bool) (tsfmt : String) (e : Entry) : String :=
  if include_ts then "[" ++ format_timestamp e.start tsfmt ++ "] " ++ e.text
  else e.text

/-- The DOCX paragraphs added after the "Transcript" heading. -/
def docx_paragraphs (include_ts : Bool) (tsfmt : String) (data : List Entry) : List String :=
  data.map (docx_para include_ts tsfmt)

/-- The three `f.write` calls of one SRT block (lines 265-273). -/
def srt_block (i : ℕ) (e : Entry) : List String :=
  let start_val := safe_time e.start
  let duration_val := safe_time e.duration
  let start_srt := format_srt_timestamp (.num start_val)
  let end_srt := format_srt_timestamp (.num (qAdd start_val duration_val))
  [toString i ++ "\n", start_srt ++ " --> " ++ end_srt ++ "\n", e.text ++ "\n\n"]

/-- The whole sequence of `f.write` calls of the SRT export: blocks for the
segments in order, indexed from 1 (`enumerate(..., start=1)`). -/
def srt_writes (data : List Entry) : List String :=
  ((List.range' 1 data.length).zip data).flatMap fun p => srt_block p.1 p.2

/-- The SRT file content on a fully successful export. -/
def render_srt (data : List Entry) : String :=
  concatStr (srt_writes data)

/-- One hex digit, lowercase, as the `\uXXXX` escapes of Python use. -/
def hexDigit (n : ℕ) : Char :=
  if n < 10 then Char.ofNat (48 + n) else Char.ofNat (87 + n)

/-- Four lowercase hex digits. -/
def hex4 (n : ℕ) : String :=
  String.mk [hexDigit (n / 4096 % 16), hexDigit (n / 256 % 16), hexDigit (n / 16 % 16),
    hexDigit (n % 16)]

/-- A `\uXXXX` escape, as a surrogate pair beyond the BMP. -/
def uEscape (c : Char) : String :=
  let n := c.toNat
  if n ≤ 65535 then "\\u" ++ hex4 n
  else
    let m := n - 65536
    "\\u" ++ hex4 (55296 + m / 1024) ++ "\\u" ++ hex4 (56320 + m % 1024)

/-- JSON escaping of one character, as `json.dump` with the default
`ensure_ascii=True` does: shorthand escapes, `\uXXXX` for the remaining
control characters and for everything outside printable ASCII. -/
def jsonEscapeChar (c : Char) : String :=
  if c = '"' then "\\\""
  else if c = '\\' then "\\\\"
  else if c = '\n' then "\\n"
  else if c = '\t' then "\\t"
  else if c = '\r' then "\\r"
  else if c = Char.ofNat 8 then "\\b"
  else if c = Char.ofNat 12 then "\\f"
  else if c.toNat < 32 || 126 < c.toNat then uEscape c
  else String.mk [c]

/-- A JSON string literal. -/
def jsonQuote (s : String) : String :=
  "\"" ++ concatStr (s.toList.map jsonEscapeChar) ++ "\""

/-- Indentation of `4 * lvl` spaces, as `json.dump(..., indent=4)` uses. -/
def jsonIndent (lvl : ℕ) : String :=
  String.mk (List.replicate (4 * lvl) ' ')

mutual

/-- Models `json.dump(v, f, indent=4)` on the value fragment the program
serializes: pretty-printed containers, escaped strings, exact-decimal
numbers. -/
def jsonRender : ℕ → Val → String
  | _, .num q => ratDecimalString q
  | _, .str s => jsonQuote s
  | lvl, .dict entries =>
      match entries with
      | [] => "\x7b\x7d"
      | es => "\x7b\n" ++ jsonRenderEntries (lvl + 1) es ++ "\n" ++ jsonIndent lvl ++ "\x7d"
  | lvl, .vlist items =>
      match items with
      | [] => "[]"
      | vs => "[\n" ++ jsonRenderItems (lvl + 1) vs ++ "\n" ++ jsonIndent lvl ++ "]"
  | _, .none => "null"

/-- Dict members, one per line. -/
def jsonRenderEntries : ℕ → List (String × Val) → String
  | _, [] => ""
  | lvl, [(k, v)] => jsonIndent lvl ++ jsonQuote k ++ ": " ++ jsonRender lvl v
  | lvl, (k, v) :: rest =>
      jsonIndent lvl ++ jsonQuote k ++ ": " ++ jsonRender lvl v ++ ",\n"
        ++ jsonRenderEntries lvl rest

/-- Array items, one per line. -/
def jsonRenderItems : ℕ → List Val → String
  | _, [] => ""
  | lvl, [v] => jsonIndent lvl ++ jsonRender lvl v
  | lvl, v :: rest =>
      jsonIndent lvl ++ jsonRender lvl v ++ ",\n" ++ jsonRenderItems lvl rest

end

/-- Decode one serialized segment record back into an `Entry`, reading the
three fields by name. -/
def decodeEntry : Val → Option Entry
  | .dict d =>
      match d.lookup "start", d.lookup "duration", d.lookup "text" with
      | some s, some du, some (.str t) => some ⟨s, du, t⟩
      | _, _, _ => Option.none
  | _ => Option.none

/-- Decode a serialized list of segment records. -/
def decodeEntriesList : List Val → Option (List Entry)
  | [] => some []
  | v :: rest =>
      match decodeEntry v, decodeEntriesList rest with
      | some e, some es => some (e :: es)
      | _, _ => Option.none

/-- Decode a JSON export back into the transcript it serializes. -/
def decodeEntries : Val → Option (List Entry)
  | .vlist items => decodeEntriesList items
  | _ => Option.none

/-- The document an export produces: a plain text file, or a DOCX modelled
as its heading and paragraph sequence. -/
inductive ExportDoc where
  | textFile (content : String)
  | docxFile (heading : String) (paragraphs : List String)

/-- The dispatch on the lowercased export format (lines 230-273): the
fully rendered document for the five known formats, nothing for an unknown
format name (no branch of the chain runs). -/
def export_render (fmt : String) (include_ts : Bool) (tsfmt : String)
    (data : List Entry) : Option ExportDoc :=
  if fmt = "txt" then some (.textFile (render_txt include_ts tsfmt data))
  else if fmt = "csv" then some (.textFile (csv_render (csv_rows include_ts tsfmt data)))
  else if fmt = "json" then some (.textFile (jsonRender 0 (entriesVal data)))
  else if fmt = "docx" then some (.docxFile "Transcript" (docx_paragraphs include_ts tsfmt data))
  else if fmt = "srt" then some (.textFile (render_srt data))
  else Option.none

/-- Result of `export_transcript` before any I/O failure is considered. -/
inductive ExportResult where
  | noTranscriptWarning
  | exported (doc : Option ExportDoc)

/-- Embedding of the entry guard and dispatch of `export_transcript`
(lines 203-273): `if not self.transcript_data` is true both for `None`
(nothing fetched) and for an empty list, so an empty transcript is turned
away with the "No Transcript" warning before any rendering. -/
def export_transcript (transcript_data : Option (List Entry)) (fmt : String)
    (include_ts : Bool) (tsfmt : String) : ExportResult :=
  match transcript_data with
  | Option.none => .noTranscriptWarning
  | some [] => .noTranscriptWarning
  | some data => .exported (export_render fmt include_ts tsfmt data)

/-- The single message the export handler ends with: the success dialog, or
the one critical error dialog produced by `except Exception`. -/
inductive ExportMsg where
  | successInfo
  | exportError

/-- Destination file content and final message of one export attempt. -/
structure WriteOutcome where
  file : String
  msg : ExportMsg

/-- Models running the write sequence of the SRT export against a destination
opened with mode `"w"` (truncated on open, so prior content is gone), with
an optional injected I/O failure before the `k`-th write; the handler turns
any failure into the single critical message, leaving whatever was already
written in the destination. -/
def run_srt_export (data : List Entry) (failBefore : Option ℕ) : WriteOutcome :=
  let writes := srt_writes data
  match failBefore with
  | Option.none => ⟨concatStr writes, .successInfo⟩
  | some k =>
      if k < writes.length then ⟨concatStr (writes.take k), .exportError⟩
      else ⟨concatStr writes, .successInfo⟩

/-!
Supporting lemmas, spec-side definitions, and the theorems settling the
claims.
-/

theorem concatStr_append (xs ys : List String) :
    concatStr (xs ++ ys) = concatStr xs ++ concatStr ys := by
  induction xs with
  | nil => simp [concatStr, String.empty_append]
  | cons s rest ih => simp [concatStr, ih, String.append_assoc]

theorem concatStr_flatMap {α : Type} (f : α → List String) (l : List α) :
    concatStr (l.flatMap f) = concatStr (l.map fun a => concatStr (f a)) := by
  induction l with
  | nil => rfl
  | cons a rest ih =>
      simp only [List.flatMap_cons, List.map_cons, concatStr, concatStr_append, ih]

theorem zip_range'_getElem? {α : Type} (l : List α) (s n : ℕ) :
    ((List.range' s l.length).zip l)[n]? = l[n]?.map fun a => (s + n, a) := by
  induction l generalizing s n with
  | nil => simp
  | cons a rest ih =>
      cases n with
      | zero => simp [List.range'_succ]
      | succ m =>
          simp only [List.length_cons, List.range'_succ, List.zip_cons_cons,
            List.getElem?_cons_succ]
          rw [ih]
          cases h : rest[m]? <;> simp [h, Nat.add_assoc, Nat.add_comm 1 m]

/-- The per-segment content of each rendered format, stated through
`getElem?` so that the row/line/paragraph/block at position `n` is tied to
the segment at position `n`. -/
def srt_block_str (i : ℕ) (e : Entry) : String :=
  concatStr (srt_block i e)

/-- The SRT blocks in order, with their 1-based indices. -/
def srt_blocks (data : List Entry) : List String :=
  ((List.range' 1 data.length).zip data).map fun p => srt_block_str p.1 p.2

theorem render_srt_eq_blocks (data : List Entry) :
    render_srt data = concatStr (srt_blocks data) := by
  unfold render_srt srt_writes srt_blocks srt_block_str
  rw [concatStr_flatMap]

/-- Modelled from the spec: clock style renders the truncated seconds
value as zero-padded `HH:MM:SS` wall-clock time of day, i.e. the value
wraps modulo 24 hours with no day component. -/
def clock_spec (total : Int) : String :=
  let t := Int.emod total 86400
  pyPadInt 2 (t / 3600) ++ ":" ++ pyPadInt 2 (t % 3600 / 60) ++ ":" ++ pyPadInt 2 (t % 60)

/-- Modelled from the spec: compact style is `MM:SS` with
`MM = total_seconds // 60` uncapped and `SS = total_seconds % 60`, each
zero-padded to width two. -/
def compact_spec (total : Int) : String :=
  pyPadInt 2 (Int.fdiv total 60) ++ ":" ++ pyPadInt 2 (Int.emod total 60)

theorem utc_hms_eq_clock_spec (s : Int) : utc_hms s = clock_spec s := by
  unfold utc_hms clock_spec
  have hnn : 0 ≤ Int.emod s 86400 := Int.emod_nonneg s (by norm_num)
  have ht : (((Int.emod s 86400).toNat : ℕ) : ℤ) = Int.emod s 86400 :=
    Int.toNat_of_nonneg hnn
  push_cast
  rw [ht]

/-- Modelled from the spec: one subtitle block is the 1-based index line,
the `start --> end` range line with both endpoints in subtitle format and
`end = start + duration` computed on the extracted numeric values, the
text, and a blank separator line. -/
def srt_spec_block (i : ℕ) (e : Entry) : String :=
  toString i ++ "\n"
    ++ format_srt_timestamp (.num (safe_time e.start)) ++ " --> "
    ++ format_srt_timestamp (.num (safe_time e.start + safe_time e.duration)) ++ "\n"
    ++ e.text ++ "\n\n"

theorem srt_block_str_eq_spec (i : ℕ) (e : Entry) :
    srt_block_str i e = srt_spec_block i e := by
  simp only [srt_block_str, srt_block, srt_spec_block, concatStr, qAdd_eq,
    String.append_empty, String.append_assoc]

/-- The two-segment transcript of the end-to-end scenario. -/
def demoTranscript : List Entry :=
  [⟨Val.num 5, Val.num (Rat.divInt 5 2), "Hello"⟩, ⟨Val.num 10, Val.num 1, "World"⟩]

/-- Whether the first test of the dict branch succeeds: the mapping has a
`"value"` key whose contents convert to a float. -/
def hasUsableValueKey (entries : List (String × Val)) : Bool :=
  match entries.lookup "value" with
  | some v =>
      match pyFloat v with
      | .ok _ => true
      | .error _ => false
  | Option.none => false

/-- Claim C1 (counterexample): the mapping `{"a": "x", "b": 5}` contains
the extractable number 5, yet `safe_time` returns 0.0 — it does not skip
the first value (whose recursive extraction finds nothing) and move on to
the first success, because the recursive call already returns 0.0 and the
`isinstance` guard accepts it. -/
theorem safe_time_not_first_success_counterexample :
    safe_time (Val.dict [("a", Val.str "x"), ("b", Val.num 5)]) = 0
      ∧ safe_time (Val.num 5) = 5 ∧ (0 : ℚ) ≠ 5 :=
  ⟨by decide, by decide, by decide⟩

/-- Claim C1 (amended): for a mapping with no usable `"value"` key,
`safe_time` returns the recursive extraction of the first value of the mapping
in iteration order — the skip-and-continue step of the loop is unreachable
because recursive extraction always yields a number (0.0 when it finds
nothing) — and only an empty such mapping itself falls through to 0.0. -/
theorem safe_time_mapping_returns_first_value_extraction :
    ∀ entries : List (String × Val), hasUsableValueKey entries = false →
      safe_time (Val.dict entries) = safe_timeEntries entries
        ∧ (entries = [] → safe_time (Val.dict entries) = 0)
        ∧ ∀ k v rest, entries = (k, v) :: rest → safe_time (Val.dict entries) = safe_time v := by
  intro entries h
  have hd : safe_time (Val.dict entries) = safe_timeEntries entries := by
    unfold hasUsableValueKey at h
    cases hl : entries.lookup "value" with
    | none => simp [safe_time, hl]
    | some v =>
        cases hf : pyFloat v with
        | ok q => simp [hl, hf] at h
        | error e => simp [safe_time, hl, hf]
  refine ⟨hd, ?_, ?_⟩
  · intro he
    rw [hd, he]
    rfl
  · intro k v rest he
    rw [hd, he]
    rfl

/-- Claim C1 (witness): the amended statement applied to the concrete
mapping of the counterexample. -/
theorem safe_time_mapping_returns_first_value_extraction_witness :
    hasUsableValueKey [("a", Val.str "x"), ("b", Val.num 5)] = false
      ∧ safe_time (Val.dict [("a", Val.str "x"), ("b", Val.num 5)]) = safe_time (Val.str "x") :=
  ⟨by decide,
    (safe_time_mapping_returns_first_value_extraction
      [("a", Val.str "x"), ("b", Val.num 5)] (by decide)).2.2
      "a" (Val.str "x") [("b", Val.num 5)] rfl⟩

mutual

/-- Every case of `safe_timeE` ends in `.ok` of the pure extraction: the
two `try/except` blocks catch exactly the exceptions `float` can raise
here, so nothing escapes. -/
def safe_timeE_ok : (v : Val) → safe_timeE v = Except.ok (safe_time v)
  | .num _ => rfl
  | .str s => by
      simp only [safe_timeE, safe_time]
      cases pyFloat (.str s) <;> rfl
  | .vlist _ => rfl
  | .none => rfl
  | .dict entries => by
      cases hl : entries.lookup "value" with
      | none =>
          simp only [safe_timeE, safe_time, hl]
          exact safe_timeEntriesE_ok entries
      | some v =>
          cases hf : pyFloat v with
          | ok q => simp [safe_timeE, safe_time, hl, hf]
          | error e =>
              simp only [safe_timeE, safe_time, hl, hf]
              exact safe_timeEntriesE_ok entries

/-- The loop propagates no exception because the recursive call returns
none. -/
def safe_timeEntriesE_ok :
    (l : List (String × Val)) → safe_timeEntriesE l = Except.ok (safe_timeEntries l)
  | [] => rfl
  | (_, v) :: _ => by
      simp only [safe_timeEntriesE, safe_timeEntries]
      rw [safe_timeE_ok v]

end

/-- Claim C2: for every input value of any shape, extraction returns a
(finite) rational and never raises: the exception-explicit embedding
always ends in `.ok` holding the result of the pure extractor, every conversion
failure being handled internally. -/
theorem extract_total_never_raises :
    ∀ v : Val, safe_timeE v = Except.ok (safe_time v) :=
  fun v => safe_timeE_ok v

/-- Claim C3 (counterexample): at the extracted value 253402300800 — one
second past the last timestamp `datetime` can represent, and exactly
midnight of year 10000 — clock style does not return the silently wrapped
`HH:MM:SS` the claim promises (which would be `"00:00:00"`, as the value
is a multiple of 86400): `utcfromtimestamp` raises and the error leaves
`format_timestamp` uncaught. -/
theorem format_timestamp_clock_out_of_range_counterexample :
    format_timestampE (Val.num 253402300800) "HH:MM:SS" = Except.error PyErr.overflowError
      ∧ Int.emod (pyInt (safe_time (Val.num 253402300800))) 86400 = 0
      ∧ clock_spec (pyInt (safe_time (Val.num 253402300800))) = "00:00:00" :=
  ⟨rfl, by decide, by decide⟩

/-- Claim C3 (amended): compact style returns the uncapped zero-padded
`MM:SS` of the truncated extracted value for every input; clock style
returns the zero-padded `HH:MM:SS` of the value modulo 24 hours whenever
the truncated seconds lie within the representable range of `datetime`
(offsets of years 1 through 9999), and raises a range error outside that
range instead of wrapping; the two concrete examples of the spec hold. -/
theorem format_timestamp_clock_and_compact_ranged :
    (∀ v : Val,
      (utcMinTs ≤ pyInt (safe_time v) ∧ pyInt (safe_time v) ≤ utcMaxTs →
        format_timestampE v "HH:MM:SS" = Except.ok (clock_spec (pyInt (safe_time v))))
      ∧ format_timestampE v "mm:ss" = Except.ok (compact_spec (pyInt (safe_time v)))
      ∧ (¬ (utcMinTs ≤ pyInt (safe_time v) ∧ pyInt (safe_time v) ≤ utcMaxTs) →
        format_timestampE v "HH:MM:SS" = Except.error PyErr.overflowError))
    ∧ format_timestampE (Val.num 3661) "HH:MM:SS" = Except.ok "01:01:01"
    ∧ format_timestampE (Val.num 90) "mm:ss" = Except.ok "01:30" := by
  refine ⟨fun v => ⟨?_, rfl, ?_⟩, rfl, rfl⟩
  · intro h
    show utc_hmsE (pyInt (safe_time v)) = _
    unfold utc_hmsE
    rw [if_pos h, utc_hms_eq_clock_spec]
  · intro h
    show utc_hmsE (pyInt (safe_time v)) = _
    unfold utc_hmsE
    rw [if_neg h]

/-- Claim C3 (witness): the amended statement applied at the clock
example input 3661, whose truncated seconds lie inside the range. -/
theorem format_timestamp_clock_and_compact_ranged_witness :
    (utcMinTs ≤ pyInt (safe_time (Val.num 3661)) ∧ pyInt (safe_time (Val.num 3661)) ≤ utcMaxTs)
      ∧ format_timestampE (Val.num 3661) "HH:MM:SS"
          = Except.ok (clock_spec (pyInt (safe_time (Val.num 3661)))) :=
  ⟨by decide,
    (format_timestamp_clock_and_compact_ranged.1 (Val.num 3661)).1 (by decide)⟩

/-- Claim C4: the documented subtitle examples hold, but at 0.9996 seconds
the rounded millisecond remainder is 1000 and the field is rendered with
four digits and no carry — `00:00:00,1000` — violating the three-digit
`HH:MM:SS,mmm` shape the docstring of the function itself promises. -/
theorem format_srt_timestamp_millisecond_overflow :
    format_srt_timestamp (Val.num (Rat.divInt 2499 2500)) = "00:00:00,1000"
      ∧ format_srt_timestamp (Val.num (Rat.divInt 3 2)) = "00:00:01,500"
      ∧ format_srt_timestamp (Val.num (Rat.divInt 14645 4)) = "01:01:01,250" :=
  ⟨by decide, by decide, by decide⟩

/-- Claim C5: for every non-empty transcript the subtitle export is the
concatenation, in order, of one block per segment — 1-based index line,
`start --> end` range with `end = start + duration` on the extracted
values, text, blank separator — independent of the display policy; and the
end-to-end two-segment scenario renders exactly as specified. -/
theorem srt_export_block_structure :
    (∀ data : List Entry, data ≠ [] →
      render_srt data
          = concatStr (((List.range' 1 data.length).zip data).map
              fun p => srt_spec_block p.1 p.2)
        ∧ ∀ (i1 : Bool) (f1 : String) (i2 : Bool) (f2 : String),
            export_transcript (some data) "srt" i1 f1
              = export_transcript (some data) "srt" i2 f2)
    ∧ render_srt demoTranscript
        = "1\n00:00:05,000 --> 00:00:07,500\nHello\n\n2\n00:00:10,000 --> 00:00:11,000\nWorld\n\n" := by
  refine ⟨fun data hne => ⟨?_, ?_⟩, by decide⟩
  · rw [render_srt_eq_blocks]
    unfold srt_blocks
    congr 1
    exact List.map_congr_left fun p _ => srt_block_str_eq_spec p.1 p.2
  · intro i1 f1 i2 f2
    cases data with
    | nil => rfl
    | cons a l => rfl

/-- Claim C5 (witness): the block-structure statement applied to the
two-segment demo transcript. -/
theorem srt_export_block_structure_witness :
    render_srt demoTranscript
      = concatStr (((List.range' 1 demoTranscript.length).zip demoTranscript).map
          fun p => srt_spec_block p.1 p.2) :=
  (srt_export_block_structure.1 demoTranscript (List.cons_ne_nil _ _)).1

/-- Claim C6: the JSON export ignores the display policy entirely, emits
the raw segment records in order, and decoding the serialized transcript
reproduces the original records field for field. -/
theorem json_export_policy_independent_and_roundtrip :
    (∀ (d : Option (List Entry)) (i1 : Bool) (f1 : String) (i2 : Bool) (f2 : String),
        export_transcript d "json" i1 f1 = export_transcript d "json" i2 f2)
    ∧ (∀ data : List Entry, decodeEntries (entriesVal data) = some data)
    ∧ (∀ data : List Entry, entriesVal data = Val.vlist (data.map entryVal)) := by
  refine ⟨?_, ?_, fun data => rfl⟩
  · intro d i1 f1 i2 f2
    cases d with
    | none => rfl
    | some l =>
        cases l with
        | nil => rfl
        | cons a t => rfl
  · intro data
    induction data with
    | nil => rfl
    | cons e rest ih =>
        have h1 : decodeEntry (entryVal e) = some e := rfl
        have h2 : decodeEntriesList (rest.map entryVal) = some rest := ih
        simp [entriesVal, decodeEntries, decodeEntriesList, h1, h2]

/-- Claim C7 (counterexample): exporting an empty transcript does not
produce an empty-bodied document in any format — the guard
`if not self.transcript_data` treats the empty list like nothing fetched
and turns the export away with the "No Transcript" warning. -/
theorem empty_transcript_export_rejected_counterexample :
    export_transcript (some []) "csv" true "HH:MM:SS" = ExportResult.noTranscriptWarning
      ∧ export_transcript (some []) "json" true "HH:MM:SS" = ExportResult.noTranscriptWarning
      ∧ export_transcript (some []) "srt" true "HH:MM:SS" = ExportResult.noTranscriptWarning
      ∧ export_transcript (some []) "txt" true "HH:MM:SS" = ExportResult.noTranscriptWarning
      ∧ export_transcript (some []) "docx" true "HH:MM:SS" = ExportResult.noTranscriptWarning :=
  ⟨rfl, rfl, rfl, rfl, rfl⟩

/-- Claim C7 (amended): the export entry point rejects an empty transcript
up front with the "No Transcript" warning and writes nothing; the
renderers themselves, applied to zero segments, do produce the well-formed
empty-bodied documents (header-only CSV, `[]` JSON, empty subtitle and
text files, heading-only document). -/
theorem empty_transcript_guard_and_empty_renders :
    (∀ (fmt : String) (i : Bool) (f : String),
        export_transcript (some []) fmt i f = ExportResult.noTranscriptWarning)
    ∧ (∀ (i : Bool) (f : String), csv_render (csv_rows i f []) = "Start Time,Text,Duration\r\n")
    ∧ jsonRender 0 (entriesVal []) = "[]"
    ∧ render_srt [] = ""
    ∧ (∀ (i : Bool) (f : String), render_txt i f [] = "")
    ∧ (∀ (i : Bool) (f : String), docx_paragraphs i f [] = []) :=
  ⟨fun _ _ _ => rfl, fun _ _ => rfl, rfl, rfl, fun _ _ => rfl, fun _ _ => rfl⟩

/-- Claim C8: for every transcript, display policy and every position, the
rendered unit at position `n` of each format (line, data row, serialized
record, paragraph, subtitle block) is the rendering of the segment at
position `n` of the transcript. -/
theorem export_order_preservation :
    ∀ (data : List Entry) (include_ts : Bool) (tsfmt : String) (n : ℕ),
      (data.map (txt_line include_ts tsfmt))[n]? = data[n]?.map (txt_line include_ts tsfmt)
        ∧ (csv_rows include_ts tsfmt data)[n + 1]? = data[n]?.map (csv_row include_ts tsfmt)
        ∧ (data.map entryVal)[n]? = data[n]?.map entryVal
        ∧ (docx_paragraphs include_ts tsfmt data)[n]?
            = data[n]?.map (docx_para include_ts tsfmt)
        ∧ (srt_blocks data)[n]? = data[n]?.map (fun e => srt_block_str (n + 1) e)
        ∧ render_txt include_ts tsfmt data = concatStr (data.map (txt_line include_ts tsfmt))
        ∧ render_srt data = concatStr (srt_blocks data) := by
  intro data i f n
  refine ⟨List.getElem?_map _ _ _, ?_, List.getElem?_map _ _ _, List.getElem?_map _ _ _, ?_,
    rfl, render_srt_eq_blocks data⟩
  · show (csv_header :: data.map (csv_row i f))[n + 1]? = _
    rw [List.getElem?_cons_succ]
    exact List.getElem?_map _ _ _
  · unfold srt_blocks
    rw [List.getElem?_map, zip_range'_getElem?]
    cases data[n]? <;> simp [Nat.add_comm 1 n]

/-- Claim C10: every CSV data row carries the raw, untouched duration
value as its third cell (while the first cell is the formatted start
time), so a nested-mapping duration reaches the writer as-is, not as the
number the extractor would produce from it. -/
theorem csv_duration_raw_passthrough :
    (∀ (data : List Entry) (include_ts : Bool) (tsfmt : String) (n : ℕ),
        (csv_rows include_ts tsfmt data)[n + 1]?
          = data[n]?.map fun e =>
              [Cell.s (if include_ts then format_timestamp e.start tsfmt else ""),
                Cell.s e.text, Cell.raw e.duration])
      ∧ csv_row true "HH:MM:SS" ⟨Val.num 0, Val.dict [("value", Val.num 3)], "t"⟩
          = [Cell.s "00:00:00", Cell.s "t", Cell.raw (Val.dict [("value", Val.num 3)])]
      ∧ safe_time (Val.dict [("value", Val.num 3)]) = 3
      ∧ Val.dict [("value", Val.num 3)] ≠ Val.num 3 := by
  refine ⟨?_, rfl, by decide, fun h => Val.noConfusion h⟩
  intro data i f n
  show (csv_header :: data.map (csv_row i f))[n + 1]? = _
  rw [List.getElem?_cons_succ, List.getElem?_map]
  cases data[n]? <;> rfl

/-- Claim C9 (counterexample): an I/O failure after the first write of the
SRT export leaves the destination holding exactly `"1\n"` — neither
empty nor the complete document — so a failed attempt is not
all-or-nothing and has already destroyed any prior content of the
destination (the file was opened in truncate mode). -/
theorem export_not_all_or_nothing_counterexample :
    (run_srt_export demoTranscript (some 1)).file = "1\n"
      ∧ (run_srt_export demoTranscript (some 1)).msg = ExportMsg.exportError
      ∧ ("1\n" : String) ≠ ""
      ∧ ("1\n" : String) ≠ (run_srt_export demoTranscript Option.none).file :=
  ⟨by decide, rfl, by decide, by decide⟩

/-- Claim C9 (amended): every injected failure surfaces as the single
critical-error message, but the operation is not all-or-nothing — a
failure before the `k`-th write leaves the destination holding exactly the
first `k` written chunks of the attempt (prior content was truncated away
at open); only a failure-free run leaves the complete document with the
single success message. -/
theorem srt_failure_leaves_written_chunks :
    ∀ (data : List Entry) (k : ℕ), k < (srt_writes data).length →
      run_srt_export data (some k)
          = ⟨concatStr ((srt_writes data).take k), ExportMsg.exportError⟩
        ∧ run_srt_export data Option.none
            = ⟨concatStr (srt_writes data), ExportMsg.successInfo⟩ := by
  intro data k hk
  constructor
  · simp only [run_srt_export]
    rw [if_pos hk]
  · rfl

/-- Claim C9 (witness): the amended statement applied to the demo
transcript with a failure before the second write. -/
theorem srt_failure_leaves_written_chunks_witness :
    1 < (srt_writes demoTranscript).length
      ∧ run_srt_export demoTranscript (some 1)
          = ⟨concatStr ((srt_writes demoTranscript).take 1), ExportMsg.exportError⟩ :=
  ⟨by decide,
    (srt_failure_leaves_written_chunks demoTranscript 1 (by decide)).1⟩

end YT
